import Mathlib

/-! # Verification of tap-zendesk-sell core behaviours

A shallow embedding of the core control flow of the tap-zendesk-sell
connector (`tap_zendesk_sell/client.py`, `tap_zendesk_sell/streams.py`,
`tap_zendesk_sell/streams/*.py`), together with theorems settling the
specified behaviours:

* the change-event synchronizer (`SyncStream.get_records`,
  `EventsStream.get_records`) and its device-identity persistence
  (`SyncStream.get_device_uuid`);
* the custom-field schema merger (`ZendeskSellStream._update_schema`,
  `_process_single_resource_type_fields`) and its keep-first-and-warn
  conflict policy;
* link-based pagination (`ZendeskSellPaginator.get_next`,
  `ZendeskSellStream.request_records`);
* child streams (`LineItemsStream.get_records`,
  `AssociatedContacts.get_records`) and their foreign-key injection;
* record parsing (`ZendeskSellStream.parse_response`).

HTTP transports and the `conn` client are scripted: each embedded
operation takes the responses the server would return as explicit
arguments, so theorems quantify over all scripted server behaviours.
Python `dict`s are modelled as association lists preserving insertion
order; Python exceptions (`KeyError`, HTTP errors) become `Except.error`.
-/

namespace TapZendeskSell

/-- JSON values, as handled by the tap (numbers restricted to integers,
which is all the embedded claims need). -/
inductive Json where
  | null : Json
  | bool : Bool → Json
  | num : Int → Json
  | str : String → Json
  | arr : List Json → Json
  | obj : List (String × Json) → Json

mutual

/-- Structural equality of JSON values, modelling Python `==` on parsed
JSON data. -/
def Json.beq : Json → Json → Bool
  | .null, .null => true
  | .bool a, .bool b => a == b
  | .num a, .num b => a == b
  | .str a, .str b => a == b
  | .arr a, .arr b => Json.beqList a b
  | .obj a, .obj b => Json.beqObj a b
  | _, _ => false

def Json.beqList : List Json → List Json → Bool
  | [], [] => true
  | x :: xs, y :: ys => Json.beq x y && Json.beqList xs ys
  | _, _ => false

def Json.beqObj : List (String × Json) → List (String × Json) → Bool
  | [], [] => true
  | (k1, v1) :: xs, (k2, v2) :: ys =>
    k1 == k2 && Json.beq v1 v2 && Json.beqObj xs ys
  | _, _ => false

end

mutual

theorem Json.beq_refl : ∀ (a : Json), Json.beq a a = true
  | .null => rfl
  | .bool b => by simp [Json.beq]
  | .num n => by simp [Json.beq]
  | .str s => by simp [Json.beq]
  | .arr xs => Json.beqList_refl xs
  | .obj kvs => Json.beqObj_refl kvs

theorem Json.beqList_refl : ∀ (xs : List Json), Json.beqList xs xs = true
  | [] => rfl
  | x :: xs => by rw [Json.beqList, Json.beq_refl x, Json.beqList_refl xs]; rfl

theorem Json.beqObj_refl : ∀ (kvs : List (String × Json)), Json.beqObj kvs kvs = true
  | [] => rfl
  | (k, v) :: xs => by rw [Json.beqObj, Json.beq_refl v, Json.beqObj_refl xs]; simp

end

/-- Association-list lookup for string-keyed JSON objects
(first binding wins, as in a Python `dict`). -/
def lookupStr (k : String) : List (String × Json) → Option Json
  | [] => none
  | (k', v) :: rest => if k' = k then some v else lookupStr k rest

/-- Key lookup `d.get(k)`: on a JSON object, `none` on absence or on a
non-object. -/
def Json.get : Json → String → Option Json
  | .obj kvs, k => lookupStr k kvs
  | _, _ => none

/-- Python truthiness of a JSON value. -/
def Json.truthy : Json → Bool
  | .null => false
  | .bool b => b
  | .num n => n != 0
  | .str s => s != ""
  | .arr xs => !xs.isEmpty
  | .obj kvs => !kvs.isEmpty

/-- Python truthiness of an optional JSON value (`None` is falsy). -/
def otruthy : Option Json → Bool
  | none => false
  | some j => j.truthy

/-- Python truthiness of an optional string (`None` and `""` are falsy). -/
def struthy : Option String → Bool
  | none => false
  | some s => s != ""

/-- Direct indexing `d[k]`,, raising `KeyError` when the key is absent
(or the value is not an object). -/
def index (j : Json) (k : String) : Except String Json :=
  match j.get k with
  | some v => .ok v
  | none => .error "KeyError"

/-! ## Change event synchronizer: device identity

`SyncStream.get_device_uuid` (streams/sync.py, lines 33-47). The run
state's `device_uuid` entry and the config's `device_uuid` entry are the
two optional-string arguments; `freshUuid` models `str(uuid.uuid4())`.
The result is the returned uuid paired with the state entry after the
call. -/

def get_device_uuid (state config : Option String) (freshUuid : String) :
    String × Option String :=
  if struthy state then (state.getD "", state)
  else if struthy config then (config.getD "", config)
  else (freshUuid, some freshUuid)

/-- The argument `SyncStream.get_records` passes to `conn.sync.start`
(streams/sync.py, line 51). -/
def sync_start_device (state config : Option String) (freshUuid : String) :
    String :=
  (get_device_uuid state config freshUuid).1

/-! ## Change event synchronizer: `SyncStream.get_records`

(streams/sync.py, lines 49-64.) `conn.sync.start` is scripted by the
`session` argument; successive `conn.sync.fetch` calls are scripted by
the `fetches` list (an exhausted script stands for a server that returns
no further items). The result collects the yielded records and the list
of `conn.sync.ack` calls, each with its key list. -/

/-- One pass of the `for item in queue_items` body: for each item,
append `item["meta"]["sync"]["ack_key"]` to the ack keys and yield
`{"data": item["data"], "meta": item["meta"]}`. -/
def syncBatch : List Json → Except String (List Json × List Json)
  | [] => .ok ([], [])
  | item :: rest =>
    match index item "meta" with
    | .error e => .error e
    | .ok m =>
      match index m "sync" with
      | .error e => .error e
      | .ok sy =>
        match index sy "ack_key" with
        | .error e => .error e
        | .ok key =>
          match index item "data" with
          | .error e => .error e
          | .ok d =>
            match syncBatch rest with
            | .error e => .error e
            | .ok (recs, keys) =>
              .ok (Json.obj [("data", d), ("meta", m)] :: recs, key :: keys)

/-- The `while not finished` loop of `SyncStream.get_records`. -/
def syncLoop : List (List Json) → Except String (List Json × List (List Json))
  | [] => .ok ([], [])
  | batch :: rest =>
    match syncBatch batch with
    | .error e => .error e
    | .ok (recs, keys) =>
      if batch.isEmpty then .ok (recs, [])
      else
        match syncLoop rest with
        | .error e => .error e
        | .ok (recs2, acks2) =>
          .ok (recs ++ recs2, (if keys.isEmpty then [] else [keys]) ++ acks2)

/-- Embeds `SyncStream.get_records`: start a session, then drain scripted
fetches; the session is finished immediately when `start` returned
`None` or a session without an `"id"` key. -/
def sync_get_records (session : Option Json) (fetches : List (List Json)) :
    Except String (List Json × List (List Json)) :=
  match session with
  | none => .ok ([], [])
  | some s =>
    match s.get "id" with
    | none => .ok ([], [])
    | some _ => syncLoop fetches

/-! ## Change event synchronizer: `EventsStream.get_records`

(streams.py, lines 669-716.) The HTTP transport is scripted: `start`
is the response to `POST /sync/start`, `fetches` the successive
responses to `GET /sync/{id}/queues/main`, and `ackStatuses` the status
codes of the successive `POST /sync/ack` responses (an exhausted ack
script stands for a server that keeps acknowledging with 200 OK). -/

/-- An HTTP response: status code and parsed JSON body. -/
structure Resp where
  status : Nat
  body : Json

/-- Embeds `response.json().get("items", [])` (non-array values yield no
items). -/
def itemsOf (body : Json) : List Json :=
  match body.get "items" with
  | some (.arr xs) => xs
  | _ => []

/-- Embeds `item.get("meta", {}).get("sync", {}).get("ack_key")`. -/
def eventsAckKey (item : Json) : Option Json :=
  (((item.get "meta").getD (.obj [])).get "sync").getD (.obj []) |>.get "ack_key"

/-- The `while True` drain loop of `EventsStream.get_records`. -/
def eventsLoop : List Resp → List Nat → Except String (List Json × List (List Json))
  | [], _ => .ok ([], [])
  | f :: rest, ackStatuses =>
    if 400 ≤ f.status then .error "HTTPError"
    else
      let items := itemsOf f.body
      if items.isEmpty then .ok ([], [])
      else
        let recs := items.map (fun it => (it.get "data").getD (.obj []))
        let keys := items.filterMap (fun it =>
          match eventsAckKey it with
          | some kj => if kj.truthy then some kj else none
          | none => none)
        if keys.isEmpty then
          match eventsLoop rest ackStatuses with
          | .error e => .error e
          | .ok (r2, a2) => .ok (recs ++ r2, a2)
        else
          match ackStatuses with
          | [] =>
            match eventsLoop rest [] with
            | .error e => .error e
            | .ok (r2, a2) => .ok (recs ++ r2, keys :: a2)
          | a :: arest =>
            if 400 ≤ a then .error "HTTPError"
            else
              match eventsLoop rest arest with
              | .error e => .error e
              | .ok (r2, a2) => .ok (recs ++ r2, keys :: a2)

/-- Embeds `EventsStream.get_records`: config device check, `POST /sync/start`
(204 means no content), then the drain loop. -/
def events_get_records (device : Option String) (start : Resp)
    (fetches : List Resp) (ackStatuses : List Nat) :
    Except String (List Json × List (List Json)) :=
  if !struthy device then .ok ([], [])
  else if start.status = 204 then .ok ([], [])
  else if 400 ≤ start.status then .error "HTTPError"
  else
    match start.body.get "id" with
    | none => .ok ([], [])
    | some sid => if sid.truthy then eventsLoop fetches ackStatuses else .ok ([], [])

/-! ## Paged resource fetcher

`ZendeskSellPaginator` (client.py, lines 21-96) and the pagination loop
of `ZendeskSellStream.request_records` (client.py, lines 212-253). The
HTTP transport is scripted by a list of responses, one per request; an
exhausted script stands for an unreachable server and yields no further
requests. -/

/-- The paginator's mutable attributes (`_current_page`,
`_next_page_url`, `_finished`). -/
structure PagState where
  currentPage : Nat
  nextPageUrl : Option Json
  finished : Bool

/-- Embeds `ZendeskSellPaginator(start_page=1, ...)`. -/
def initPagState : PagState := ⟨1, none, false⟩

/-- Embeds `response.json().get("meta", {}).get("links", {}).get("next_page")`. -/
def nextLinkOf (r : Resp) : Option Json :=
  (((r.body.get "meta").getD (.obj [])).get "links").getD (.obj [])
    |>.get "next_page"

/-- Embeds `ZendeskSellPaginator.get_next`: next page number and paginator
state after processing one response. -/
def get_next (st : PagState) (r : Resp) : Nat × PagState :=
  if r.status ≠ 200 then (st.currentPage, { st with finished := true })
  else if !otruthy (nextLinkOf r) then (st.currentPage, { st with finished := true })
  else (st.currentPage + 1,
    { currentPage := st.currentPage + 1
      nextPageUrl := nextLinkOf r
      finished := st.finished })

/-- Embeds `ZendeskSellPaginator.has_more`. -/
def has_more (st : PagState) : Bool := !st.finished

/-- Embeds `ZendeskSellStream.get_next_page_token`: the next page token, or
`none` once the paginator is finished. -/
def get_next_page_token (r : Resp) (st : PagState) : Option Nat × PagState :=
  let (n, st') := get_next st r
  if has_more st' then (some n, st') else (none, st')

/-- Embeds `ZendeskSellStream.parse_response`:
`extract_jsonpath("$.items[*].data", response.json())`. -/
def parse_response (r : Resp) : List Json :=
  (itemsOf r.body).filterMap (fun it => it.get "data")

/-- The `while True` loop of `ZendeskSellStream.request_records`, over a
scripted list of responses: yields all parsed records and counts the
requests issued (`if not next_page_token: break`, a falsy token being
`None` or `0`). -/
def request_records_from : List Resp → PagState → List Json × Nat
  | [], _ => ([], 0)
  | r :: rest, st =>
    let recs := parse_response r
    match get_next_page_token r st with
    | (some (_ + 1), st') =>
      let (recs2, n2) := request_records_from rest st'
      (recs ++ recs2, n2 + 1)
    | _ => (recs, 1)

/-- Embeds `ZendeskSellStream.request_records` with the fresh paginator of
`get_new_paginator`. -/
def request_records (script : List Resp) : List Json × Nat :=
  request_records_from script initPagState

/-! ## Custom field schema merger

`ZendeskSellStream.custom_field_type`, `resource_types`,
`_process_single_resource_type_fields` and `_update_schema`
(client.py, lines 255-402). The custom-fields endpoint is scripted by a
function from resource type to the optional response body (`none`
modelling a failed request). Logger calls are collected as `LogEvent`
values. -/

/-- The shape `{"type": ["string", "null"]}` shared by most custom
field types. -/
def strNullShape : Json := .obj [("type", .arr [.str "string", .str "null"])]

/-- The shape `{"type": ["boolean", "null"]}`. -/
def boolNullShape : Json := .obj [("type", .arr [.str "boolean", .str "null"])]

/-- Embeds `ZendeskSellStream.address_properties`. -/
def address_properties : Json := .obj
  [("line1", .obj [("type", .arr [.str "string", .str "null"]),
                   ("description", .str "Line 1 of the address.")]),
   ("city", .obj [("type", .arr [.str "string", .str "null"]),
                  ("description", .str "City name.")]),
   ("postal_code", .obj [("type", .arr [.str "string", .str "null"]),
                         ("description", .str "Zip code or equivalent.")]),
   ("state", .obj [("type", .arr [.str "string", .str "null"]),
                   ("description", .str "State name.")]),
   ("country", .obj [("type", .arr [.str "string", .str "null"]),
                     ("description", .str "Country name.")])]

/-- Embeds `ZendeskSellStream.custom_field_type`: declared field type →
resolved schema shape. -/
def custom_field_type : List (String × Json) :=
  [("address", .obj [("type", .arr [.str "object", .str "null"]),
                     ("properties", address_properties)]),
   ("bool", boolNullShape),
   ("boolean", boolNullShape),
   ("date", strNullShape),
   ("datetime", .obj [("type", .arr [.str "string", .str "null"]),
                      ("format", .str "date-time")]),
   ("email", strNullShape),
   ("list", strNullShape),
   ("multi_select_list", .obj [("type", .arr [.str "array", .str "null"]),
                               ("items", .obj [("type", .arr [.str "string"])])]),
   ("number", strNullShape),
   ("phone", strNullShape),
   ("string", strNullShape),
   ("text", strNullShape),
   ("url", strNullShape)]

/-- Embeds `ZendeskSellStream.resource_types`. -/
def resource_types : List String :=
  ["deal", "contact", "lead", "prospect_and_customer"]

/-- Lookup in the accumulated `custom_fields_properties` dict, whose
keys are the JSON `name` values (Python dict keyed by `==`). -/
def lookupKey (k : Json) : List (Json × Json) → Option Json
  | [] => none
  | (k', v) :: rest => if Json.beq k' k then some v else lookupKey k rest

/-- Logger side effects produced by the embedded operations. -/
inductive LogEvent where
  | fetchError (resource : String)
  | missingNameOrType (item : Json)
  | conflict (fieldName : Json) (fieldType : String) (resource : String)
      (existing : Json)
  | unsupported (fieldType : Json) (fieldName : Json) (resource : String)
  | missingParent (stream : String)

/-- The existing-type description reported by the conflict warning
(client.py, lines 341-347). -/
def conflictDesc (info : Json) : Json :=
  match (info.get "items").bind (fun it => it.get "type") with
  | some v => v
  | none =>
    match info.get "type" with
    | some v => v
    | none => .str "unknown"

/-- The body of `for custom_field in data` in
`_process_single_resource_type_fields` (client.py, lines 324-368),
for one custom-field item: the updated properties dict and at most one
warning. -/
def processItemCore (resource : String) (props : List (Json × Json))
    (item : Json) : List (Json × Json) × Option LogEvent :=
  match ((item.get "data").getD (.obj [])).get "name",
        ((item.get "data").getD (.obj [])).get "type" with
  | some fname, some ftype =>
    if fname.truthy && ftype.truthy then
      match ftype with
      | .str ts =>
        match lookupStr ts custom_field_type with
        | some shape =>
          match lookupKey fname props with
          | none => (props ++ [(fname, shape)], none)
          | some existing =>
            if Json.beq existing shape then (props, none)
            else
              (props, some (.conflict fname ts resource (conflictDesc existing)))
        | none => (props, some (.unsupported ftype fname resource))
      | _ => (props, some (.unsupported ftype fname resource))
    else (props, some (.missingNameOrType item))
  | _, _ => (props, some (.missingNameOrType item))

/-- One loop iteration, threading the accumulated warning log. -/
def processItem (resource : String)
    (acc : List (Json × Json) × List LogEvent) (item : Json) :
    List (Json × Json) × List LogEvent :=
  match processItemCore resource acc.1 item with
  | (props, none) => (props, acc.2)
  | (props, some w) => (props, acc.2 ++ [w])

/-- Embeds `_process_single_resource_type_fields` over a scripted endpoint: a
failed request logs and leaves the dict unchanged; otherwise every item
of the response's `items` is processed in order. -/
def processResource (endpoint : String → Option Json)
    (acc : List (Json × Json) × List LogEvent) (resource : String) :
    List (Json × Json) × List LogEvent :=
  match endpoint resource with
  | none => (acc.1, acc.2 ++ [.fetchError resource])
  | some body => (itemsOf body).foldl (processItem resource) acc

/-- Embeds `_update_schema`: validate the resource-type set (modelled with its
iteration order) and the access token, then fold all resource types'
custom fields into one mapping. -/
def update_schema (order : List String) (accessToken : Option String)
    (endpoint : String → Option Json) :
    Except String (List (Json × Json) × List LogEvent) :=
  if !order.all (fun r => resource_types.contains r) then
    .error "Invalid resource type(s) provided."
  else if !struthy accessToken then
    .error "Access token is required but not found in config."
  else
    .ok (order.foldl (processResource endpoint) ([], []))

/-- Properties component of one item step (warnings dropped). -/
def stepP (resource : String) (props : List (Json × Json)) (item : Json) :
    List (Json × Json) :=
  (processItemCore resource props item).1

/-- Properties component of processing an item list. -/
def foldP (resource : String) (props : List (Json × Json))
    (items : List Json) : List (Json × Json) :=
  items.foldl (stepP resource) props

/-- Properties component of processing one resource type. -/
def resourceP (endpoint : String → Option Json) (props : List (Json × Json))
    (resource : String) : List (Json × Json) :=
  match endpoint resource with
  | none => props
  | some body => foldP resource props (itemsOf body)

/-- Properties component of processing a resource-type list. -/
def allP (endpoint : String → Option Json) (props : List (Json × Json))
    (order : List String) : List (Json × Json) :=
  order.foldl (resourceP endpoint) props

/-- The name→shape binding an item would contribute when its field is
well-formed and its declared type supported. -/
def fieldKeyShape (item : Json) : Option (Json × Json) :=
  match ((item.get "data").getD (.obj [])).get "name",
        ((item.get "data").getD (.obj [])).get "type" with
  | some fname, some ftype =>
    if fname.truthy && ftype.truthy then
      match ftype with
      | .str ts => (lookupStr ts custom_field_type).map (fun s => (fname, s))
      | _ => none
    else none
  | _, _ => none

/-! ## Child streams

`LineItemsStream.get_records` (streams/orders.py, lines 69-88),
`AssociatedContacts.get_records` (streams/deals.py, lines 71-94), and
the `request_records`-based `AssociatedContacts.get_records`
(streams.py, lines 554-566), plus the parents' `get_child_context`.
The `conn` list endpoints are scripted as one item list per page
(an exhausted script stands for a server returning an empty page). -/

/-- Embeds `context.get(key) if context else None`. -/
def parentId (context : Option Json) (key : String) : Option Json :=
  match context with
  | none => none
  | some c => c.get key

/-- Python `x is None` for an optional JSON value (a JSON `null` is
Python's `None`). -/
def pyIsNone : Option Json → Bool
  | none => true
  | some .null => true
  | some _ => false

/-- The removal a `dict.pop(k)` performs on the bindings. -/
def removeKey (k : String) : List (String × Json) → List (String × Json)
  | [] => []
  | (k', v) :: rest => if k' = k then rest else (k', v) :: removeKey k rest

/-- Embeds `dict[k] = v`: update in place when present, else append. -/
def setKey (k : String) (v : Json) : List (String × Json) → List (String × Json)
  | [] => [(k, v)]
  | (k', v') :: rest => if k' = k then (k, v) :: rest else (k', v') :: setKey k v rest

/-- Map a fallible transform over a list, propagating the first
exception. -/
def mapExcept (f : Json → Except String Json) : List Json → Except String (List Json)
  | [] => .ok []
  | x :: xs =>
    match f x with
    | .error e => .error e
    | .ok y =>
      match mapExcept f xs with
      | .error e => .error e
      | .ok ys => .ok (y :: ys)

/-- Embeds `row["line_item_id"] = row.pop("id"); row["order_id"] = order_id`
(KeyError when `id` is absent, TypeError on a non-dict row). -/
def lineItemRow (orderId : Json) (row : Json) : Except String Json :=
  match row with
  | .obj kvs =>
    match lookupStr "id" kvs with
    | none => .error "KeyError"
    | some idv =>
      .ok (.obj (setKey "order_id" orderId (setKey "line_item_id" idv (removeKey "id" kvs))))
  | _ => .error "TypeError"

/-- The `while True` page loop of `LineItemsStream.get_records`. -/
def lineItemsLoop (orderId : Json) : List (List Json) → Except String (List Json)
  | [] => .ok []
  | pg :: rest =>
    if pg.isEmpty then .ok []
    else
      match mapExcept (lineItemRow orderId) pg with
      | .error e => .error e
      | .ok rows =>
        match lineItemsLoop orderId rest with
        | .error e => .error e
        | .ok more => .ok (rows ++ more)

/-- Embeds `LineItemsStream.get_records` (streams/orders.py): skip with a
warning when `order_id` is missing from the context, else page through
the scripted `conn.line_items.list` results. -/
def line_items_get_records (context : Option Json) (pages : List (List Json)) :
    Except String (List Json × List LogEvent) :=
  let oid := parentId context "order_id"
  if pyIsNone oid then .ok ([], [.missingParent "line_items"])
  else
    match lineItemsLoop (oid.getD .null) pages with
    | .error e => .error e
    | .ok recs => .ok (recs, [])

/-- Embeds `row["deal_id"] = deal_id` (TypeError on a non-dict row). -/
def assocRow (dealId : Json) (row : Json) : Except String Json :=
  match row with
  | .obj kvs => .ok (.obj (setKey "deal_id" dealId kvs))
  | _ => .error "TypeError"

/-- The `while not finished` page loop of
`AssociatedContacts.get_records` (streams/deals.py). -/
def assocLoop (dealId : Json) : List (List Json) → Except String (List Json)
  | [] => .ok []
  | pg :: rest =>
    if pg.isEmpty then .ok []
    else
      match mapExcept (assocRow dealId) pg with
      | .error e => .error e
      | .ok rows =>
        match assocLoop dealId rest with
        | .error e => .error e
        | .ok more => .ok (rows ++ more)

/-- Embeds `AssociatedContacts.get_records` (streams/deals.py): skip with a
warning when `deal_id` is missing from the context, else page through
the scripted `conn.associated_contacts.list` results. -/
def associated_contacts_get_records (context : Option Json)
    (pages : List (List Json)) : Except String (List Json × List LogEvent) :=
  let did := parentId context "deal_id"
  if pyIsNone did then .ok ([], [.missingParent "associated_contacts"])
  else
    match assocLoop (did.getD .null) pages with
    | .error e => .error e
    | .ok recs => .ok (recs, [])

/-- Embeds `AssociatedContacts.get_records` (streams.py): skip with a warning
when `deal_id` is missing, else run the standard `request_records` over
the scripted transport and add `deal_id` to each record. -/
def assoc_request_get_records (context : Option Json) (script : List Resp) :
    Except String (List Json × List LogEvent) :=
  let did := parentId context "deal_id"
  if pyIsNone did then .ok ([], [.missingParent "associated_contacts"])
  else
    match mapExcept (assocRow (did.getD .null)) (request_records script).1 with
    | .error e => .error e
    | .ok recs => .ok (recs, [])

/-- Embeds `OrdersStream.get_child_context`: `{"order_id": record["id"]}`. -/
def order_child_context (record : Json) : Except String Json :=
  match record.get "id" with
  | some v => .ok (.obj [("order_id", v)])
  | none => .error "KeyError"

/-- Embeds `DealsStream.get_child_context`: `{"deal_id": record["id"]}`. -/
def deal_child_context (record : Json) : Except String Json :=
  match record.get "id" with
  | some v => .ok (.obj [("deal_id", v)])
  | none => .error "KeyError"

/-! ## Theorems: change event synchronizer -/

/-- C1: for every scripted server behaviour in which the start call
returns a session id and the queue fetches return first a batch of 2
items and then an empty batch, the synchronizer (both
`SyncStream.get_records` and `EventsStream.get_records`) yields exactly
the 2 items' records in fetch order, issues exactly one acknowledgment
call whose key list contains exactly both items' ack keys, and
terminates normally. -/
theorem sync_two_items_single_ack
    (s sid m1 sy1 k1 d1 m2 sy2 k2 d2 i1 i2 sb sid2 fb1 fb2 : Json)
    (device : Option String) (a : Nat)
    (hs : s.get "id" = some sid)
    (hm1 : i1.get "meta" = some m1) (hsy1 : m1.get "sync" = some sy1)
    (hk1 : sy1.get "ack_key" = some k1) (hd1 : i1.get "data" = some d1)
    (hm2 : i2.get "meta" = some m2) (hsy2 : m2.get "sync" = some sy2)
    (hk2 : sy2.get "ack_key" = some k2) (hd2 : i2.get "data" = some d2)
    (hdev : struthy device = true)
    (hsb : sb.get "id" = some sid2) (hsid2 : sid2.truthy = true)
    (hfb1 : itemsOf fb1 = [i1, i2]) (hfb2 : itemsOf fb2 = [])
    (k1t : k1.truthy = true) (k2t : k2.truthy = true)
    (ha : a < 400) :
    sync_get_records (some s) [[i1, i2], []] =
      .ok ([Json.obj [("data", d1), ("meta", m1)],
            Json.obj [("data", d2), ("meta", m2)]], [[k1, k2]]) ∧
    events_get_records device ⟨200, sb⟩ [⟨200, fb1⟩, ⟨200, fb2⟩] [a] =
      .ok ([d1, d2], [[k1, k2]]) := by
  constructor
  · simp [sync_get_records, hs, syncLoop, syncBatch, index,
      hm1, hsy1, hk1, hd1, hm2, hsy2, hk2, hd2]
  · simp [events_get_records, hdev, hsb, hsid2, eventsLoop, eventsAckKey,
      hfb1, hfb2, hm1, hsy1, hk1, hd1, hm2, hsy2, hk2, hd2, k1t, k2t,
      Nat.not_le.mpr ha]

/-- Witness for C1 at a concrete scripted server. -/
theorem sync_two_items_single_ack_witness :
    sync_get_records
        (some (.obj [("id", .str "S")]))
        [[Json.obj [("data", .obj [("id", .num 1)]),
                    ("meta", .obj [("sync", .obj [("ack_key", .str "K1")])])],
          Json.obj [("data", .obj [("id", .num 2)]),
                    ("meta", .obj [("sync", .obj [("ack_key", .str "K2")])])]], []] =
      .ok ([Json.obj [("data", .obj [("id", .num 1)]),
                      ("meta", .obj [("sync", .obj [("ack_key", .str "K1")])])],
            Json.obj [("data", .obj [("id", .num 2)]),
                      ("meta", .obj [("sync", .obj [("ack_key", .str "K2")])])]],
           [[.str "K1", .str "K2"]]) ∧
    events_get_records (some "D1") ⟨200, .obj [("id", .str "S")]⟩
        [⟨200, .obj [("items", .arr
            [Json.obj [("data", .obj [("id", .num 1)]),
                       ("meta", .obj [("sync", .obj [("ack_key", .str "K1")])])],
             Json.obj [("data", .obj [("id", .num 2)]),
                       ("meta", .obj [("sync", .obj [("ack_key", .str "K2")])])]])]⟩,
         ⟨200, .obj [("items", .arr [])]⟩] [200] =
      .ok ([.obj [("id", .num 1)], .obj [("id", .num 2)]],
           [[.str "K1", .str "K2"]]) :=
  sync_two_items_single_ack
    (.obj [("id", .str "S")]) (.str "S")
    (.obj [("sync", .obj [("ack_key", .str "K1")])])
    (.obj [("ack_key", .str "K1")]) (.str "K1") (.obj [("id", .num 1)])
    (.obj [("sync", .obj [("ack_key", .str "K2")])])
    (.obj [("ack_key", .str "K2")]) (.str "K2") (.obj [("id", .num 2)])
    _ _ (.obj [("id", .str "S")]) (.str "S") _ _ (some "D1") 200
    rfl rfl rfl rfl rfl rfl rfl rfl rfl rfl rfl rfl rfl rfl
    (by decide) (by decide) (by decide)

/-- C2: the device identifier is stable across runs: with a persisted
device id `"D1"` in run state, the start call uses `"D1"` and the state
is unchanged, whatever the configuration holds; and in general a second
run of `get_device_uuid` over the state left by a first run returns the
first run's uuid again without re-randomizing. -/
theorem device_uuid_stable :
    (∀ (config : Option String) (fresh : String),
      sync_start_device (some "D1") config fresh = "D1" ∧
      get_device_uuid (some "D1") config fresh = ("D1", some "D1")) ∧
    (∀ (s c : Option String) (f f' : String), f ≠ "" →
      get_device_uuid ((get_device_uuid s c f).2) c f' =
        ((get_device_uuid s c f).1, (get_device_uuid s c f).2)) := by
  constructor
  · intro config fresh
    constructor <;> simp [sync_start_device, get_device_uuid, struthy]
  · intro s c f f' hf
    match s with
    | none =>
      match c with
      | none => simp [get_device_uuid, struthy, hf]
      | some cv =>
        by_cases hc : cv = "" <;>
          simp [get_device_uuid, struthy, hc, hf]
    | some sv =>
      by_cases hsv : sv = ""
      · match c with
        | none => simp [get_device_uuid, struthy, hsv, hf]
        | some cv =>
          by_cases hc : cv = "" <;>
            simp [get_device_uuid, struthy, hsv, hc, hf]
      · simp [get_device_uuid, struthy, hsv]

/-- Witness for C2 at concrete states and configurations. -/
theorem device_uuid_stable_witness :
    (sync_start_device (some "D1") (some "cfg") "fresh-1" = "D1" ∧
     get_device_uuid (some "D1") (some "cfg") "fresh-1" = ("D1", some "D1")) ∧
    get_device_uuid ((get_device_uuid none none "fresh-1").2) none "fresh-2" =
      ((get_device_uuid none none "fresh-1").1,
       (get_device_uuid none none "fresh-1").2) :=
  ⟨device_uuid_stable.1 (some "cfg") "fresh-1",
   device_uuid_stable.2 none none "fresh-1" "fresh-2" (by decide)⟩

/-! ## Theorems: paged resource fetcher -/

/-- Auxiliary induction for C4: from any unfinished paginator state, a
script of link-carrying 200 pages followed by one link-free response
costs exactly one request per scripted response. -/
theorem request_records_from_link_count
    (pages : List Resp) (last : Resp) (st : PagState)
    (hst : st.finished = false)
    (hp : ∀ r ∈ pages, r.status = 200 ∧ otruthy (nextLinkOf r) = true)
    (hl : otruthy (nextLinkOf last) = false) :
    (request_records_from (pages ++ [last]) st).2 = pages.length + 1 := by
  induction pages generalizing st with
  | nil =>
    by_cases h200 : last.status = 200 <;>
      simp [request_records_from, get_next_page_token, get_next, has_more,
        h200, hl]
  | cons p rest ih =>
    obtain ⟨hs, hlink⟩ := hp p (by simp)
    have hrest : ∀ r ∈ rest, r.status = 200 ∧ otruthy (nextLinkOf r) = true :=
      fun r hr => hp r (by simp [hr])
    have step := ih ⟨st.currentPage + 1, nextLinkOf p, false⟩ rfl hrest
    simp [request_records_from, get_next_page_token, get_next, has_more,
      hs, hlink, hst, step]

/-- C4: for link-based pagination, the loop terminates exactly when the
`meta.links.next_page` link is absent: for every scripted server
emitting `N` 200-status pages carrying the link and then one response
without it, exactly `N + 1` requests are issued. -/
theorem pagination_terminates_iff_link_absent
    (pages : List Resp) (last : Resp)
    (hp : ∀ r ∈ pages, r.status = 200 ∧ otruthy (nextLinkOf r) = true)
    (hl : otruthy (nextLinkOf last) = false) :
    (request_records (pages ++ [last])).2 = pages.length + 1 :=
  request_records_from_link_count pages last initPagState rfl hp hl

/-- Witness for C4 with two linked pages then a link-free page. -/
theorem pagination_terminates_iff_link_absent_witness :
    (request_records
      [⟨200, .obj [("items", .arr [.obj [("data", .num 1)]]),
                   ("meta", .obj [("links", .obj [("next_page", .str "u2")])])]⟩,
       ⟨200, .obj [("items", .arr [.obj [("data", .num 2)]]),
                   ("meta", .obj [("links", .obj [("next_page", .str "u3")])])]⟩,
       ⟨200, .obj [("items", .arr [.obj [("data", .num 3)]]),
                   ("meta", .obj [("links", .obj [])])]⟩]).2 = 3 :=
  pagination_terminates_iff_link_absent
    [⟨200, .obj [("items", .arr [.obj [("data", .num 1)]]),
                 ("meta", .obj [("links", .obj [("next_page", .str "u2")])])]⟩,
     ⟨200, .obj [("items", .arr [.obj [("data", .num 2)]]),
                 ("meta", .obj [("links", .obj [("next_page", .str "u3")])])]⟩]
    ⟨200, .obj [("items", .arr [.obj [("data", .num 3)]]),
                ("meta", .obj [("links", .obj [])])]⟩
    (by decide) (by decide)

/-- C10: on any response whose status is not 200 OK, `get_next` marks
the paginator finished (`has_more` is false afterwards) and returns the
current page number unchanged, and `get_next_page_token` returns no
token, for every response body. -/
theorem paginator_stops_on_non_ok (st : PagState) (r : Resp)
    (h : r.status ≠ 200) :
    get_next st r = (st.currentPage, { st with finished := true }) ∧
    has_more (get_next st r).2 = false ∧
    (get_next_page_token r st).1 = none := by
  refine ⟨by simp [get_next, h], ?_, ?_⟩ <;>
    simp [get_next, get_next_page_token, has_more, h]

/-- Witness for C10 on a 500 response carrying a next-page link. -/
theorem paginator_stops_on_non_ok_witness :
    get_next initPagState
        ⟨500, .obj [("meta", .obj [("links", .obj [("next_page", .str "u")])])]⟩ =
      (1, { initPagState with finished := true }) ∧
    has_more (get_next initPagState
        ⟨500, .obj [("meta", .obj [("links", .obj [("next_page", .str "u")])])]⟩).2 =
      false ∧
    (get_next_page_token
        ⟨500, .obj [("meta", .obj [("links", .obj [("next_page", .str "u")])])]⟩
        initPagState).1 = none :=
  paginator_stops_on_non_ok initPagState
    ⟨500, .obj [("meta", .obj [("links", .obj [("next_page", .str "u")])])]⟩
    (by decide)

/-! ## Theorems: custom field schema merger -/

theorem lookupKey_append_some (k : Json) (p q : List (Json × Json)) (v : Json)
    (h : lookupKey k p = some v) : lookupKey k (p ++ q) = some v := by
  induction p with
  | nil => simp [lookupKey] at h
  | cons kv rest ih =>
    obtain ⟨k', v'⟩ := kv
    by_cases hb : Json.beq k' k = true
    · simpa [lookupKey, hb] using h
    · simp only [lookupKey, Bool.not_eq_true] at hb ⊢
      simp only [List.cons_append, lookupKey, hb, if_false] at h ⊢
      exact ih h

theorem lookupKey_append_self (k : Json) (p : List (Json × Json)) (s : Json)
    (h : lookupKey k p = none) : lookupKey k (p ++ [(k, s)]) = some s := by
  induction p with
  | nil => simp [lookupKey, Json.beq_refl]
  | cons kv rest ih =>
    obtain ⟨k', v'⟩ := kv
    by_cases hb : Json.beq k' k = true
    · simp [lookupKey, hb] at h
    · simp only [Bool.not_eq_true] at hb
      simp only [lookupKey, hb, if_false] at h
      simp only [List.cons_append, lookupKey, hb, if_false]
      exact ih h

/-- Case analysis of one processing step: either the item contributes
no binding and the dict is unchanged, or it contributes `(n, s)`, which
is appended when `n` is new and otherwise leaves the dict unchanged
(keep-first policy). -/
theorem stepP_cases (r : String) (p : List (Json × Json)) (i : Json) :
    (fieldKeyShape i = none ∧ stepP r p i = p) ∨
    (∃ n s, fieldKeyShape i = some (n, s) ∧
      ((lookupKey n p).isSome = true ∧ stepP r p i = p ∨
       lookupKey n p = none ∧ stepP r p i = p ++ [(n, s)])) := by
  unfold stepP processItemCore fieldKeyShape
  rcases hn : ((i.get "data").getD (.obj [])).get "name" with _ | fname <;>
    rcases ht : ((i.get "data").getD (.obj [])).get "type" with _ | ftype <;>
      simp only [hn, ht]
  · simp
  · simp
  · simp
  · by_cases htr : fname.truthy && ftype.truthy
    · simp only [htr, if_true]
      cases ftype with
      | str ts =>
        rcases hl : lookupStr ts custom_field_type with _ | shape
        · simp [hl]
        · simp only [hl]
          rcases hk : lookupKey fname p with _ | existing
          · simp only [hk]
            exact Or.inr ⟨fname, shape, by simp, Or.inr ⟨hk, by simp⟩⟩
          · simp only [hk]
            by_cases hb : Json.beq existing shape = true <;> simp only [hb] <;>
              exact Or.inr ⟨fname, shape, by simp,
                Or.inl ⟨by simp [hk], by simp⟩⟩
      | null => simp
      | bool b => simp
      | num n => simp
      | arr xs => simp
      | obj kvs => simp
    · simp only [htr, if_false]
      simp

theorem stepP_lookup_mono (r : String) (p : List (Json × Json)) (i k v : Json)
    (h : lookupKey k p = some v) : lookupKey k (stepP r p i) = some v := by
  rcases stepP_cases r p i with ⟨_, he⟩ | ⟨n, s, _, ⟨_, he⟩ | ⟨_, he⟩⟩ <;>
    rw [he]
  · exact h
  · exact h
  · exact lookupKey_append_some k p [(n, s)] v h

theorem stepP_lookup_isSome (r : String) (p : List (Json × Json)) (i k : Json)
    (h : (lookupKey k p).isSome = true) :
    (lookupKey k (stepP r p i)).isSome = true := by
  rcases Option.isSome_iff_exists.mp h with ⟨v, hv⟩
  simp [stepP_lookup_mono r p i k v hv]

theorem foldP_lookup_isSome (r : String) (items : List Json)
    (p : List (Json × Json)) (k : Json)
    (h : (lookupKey k p).isSome = true) :
    (lookupKey k (foldP r p items)).isSome = true := by
  induction items generalizing p with
  | nil => exact h
  | cons i rest ih => exact ih (stepP r p i) (stepP_lookup_isSome r p i k h)

theorem stepP_present (r : String) (p : List (Json × Json)) (i n s : Json)
    (h : fieldKeyShape i = some (n, s)) :
    (lookupKey n (stepP r p i)).isSome = true := by
  rcases stepP_cases r p i with ⟨hf, _⟩ | ⟨n', s', hf, ⟨hk, he⟩ | ⟨hk, he⟩⟩
  · rw [h] at hf; cases hf
  · rw [h] at hf
    obtain ⟨rfl, rfl⟩ : n' = n ∧ s' = s := by
      injection hf with hf'
      exact ⟨congrArg Prod.fst hf'.symm, congrArg Prod.snd hf'.symm⟩
    rw [he]; exact hk
  · rw [h] at hf
    obtain ⟨rfl, rfl⟩ : n' = n ∧ s' = s := by
      injection hf with hf'
      exact ⟨congrArg Prod.fst hf'.symm, congrArg Prod.snd hf'.symm⟩
    rw [he]
    simp [lookupKey_append_self _ p _ hk]

theorem foldP_present (r : String) (items : List Json)
    (p : List (Json × Json)) (i n s : Json)
    (hm : i ∈ items) (hf : fieldKeyShape i = some (n, s)) :
    (lookupKey n (foldP r p items)).isSome = true := by
  induction items generalizing p with
  | nil => cases hm
  | cons j rest ih =>
    rcases List.mem_cons.mp hm with rfl | hm'
    · exact foldP_lookup_isSome r rest (stepP r p i) n (stepP_present r p i n s hf)
    · exact ih (stepP r p j) hm'

theorem stepP_fix_none (r : String) (p : List (Json × Json)) (i : Json)
    (hf : fieldKeyShape i = none) : stepP r p i = p := by
  rcases stepP_cases r p i with ⟨_, he⟩ | ⟨n, s, hf', _⟩
  · exact he
  · rw [hf] at hf'; cases hf'

theorem stepP_fix_present (r : String) (p : List (Json × Json)) (i n s : Json)
    (hf : fieldKeyShape i = some (n, s))
    (h : (lookupKey n p).isSome = true) : stepP r p i = p := by
  rcases stepP_cases r p i with ⟨hf', _⟩ | ⟨n', s', hf', ⟨_, he⟩ | ⟨hk, _⟩⟩
  · rw [hf] at hf'; cases hf'
  · exact he
  · rw [hf] at hf'
    obtain ⟨rfl, rfl⟩ : n' = n ∧ s' = s := by
      injection hf' with hf''
      exact ⟨congrArg Prod.fst hf''.symm, congrArg Prod.snd hf''.symm⟩
    rw [hk] at h; cases h

theorem foldP_fix (r : String) (items : List Json) (p : List (Json × Json))
    (h : ∀ i ∈ items, ∀ n s, fieldKeyShape i = some (n, s) →
      (lookupKey n p).isSome = true) :
    foldP r p items = p := by
  induction items with
  | nil => rfl
  | cons j rest ih =>
    have hj : stepP r p j = p := by
      rcases hf : fieldKeyShape j with _ | ⟨n, s⟩
      · exact stepP_fix_none r p j hf
      · exact stepP_fix_present r p j n s hf (h j (by simp) n s hf)
    show foldP r (stepP r p j) rest = p
    rw [hj]
    exact ih (fun i hi n s hf => h i (by simp [hi]) n s hf)

theorem resourceP_lookup_isSome (e : String → Option Json) (r : String)
    (p : List (Json × Json)) (k : Json)
    (h : (lookupKey k p).isSome = true) :
    (lookupKey k (resourceP e p r)).isSome = true := by
  unfold resourceP
  cases e r with
  | none => exact h
  | some body => exact foldP_lookup_isSome r (itemsOf body) p k h

theorem allP_lookup_isSome (e : String → Option Json) (order : List String)
    (p : List (Json × Json)) (k : Json)
    (h : (lookupKey k p).isSome = true) :
    (lookupKey k (allP e p order)).isSome = true := by
  induction order generalizing p with
  | nil => exact h
  | cons r rest ih => exact ih (resourceP e p r) (resourceP_lookup_isSome e r p k h)

theorem allP_present (e : String → Option Json) (order : List String)
    (p : List (Json × Json)) (r : String) (body i n s : Json)
    (hr : r ∈ order) (hb : e r = some body) (hi : i ∈ itemsOf body)
    (hf : fieldKeyShape i = some (n, s)) :
    (lookupKey n (allP e p order)).isSome = true := by
  induction order generalizing p with
  | nil => cases hr
  | cons r0 rest ih =>
    rcases List.mem_cons.mp hr with rfl | hm
    · refine allP_lookup_isSome e rest (resourceP e p r) n ?_
      unfold resourceP
      rw [hb]
      exact foldP_present r (itemsOf body) p i n s hi hf
    · exact ih (resourceP e p r0) hm

theorem allP_fix (e : String → Option Json) (order : List String)
    (p : List (Json × Json))
    (h : ∀ r ∈ order, ∀ body, e r = some body → ∀ i ∈ itemsOf body,
      ∀ n s, fieldKeyShape i = some (n, s) → (lookupKey n p).isSome = true) :
    allP e p order = p := by
  induction order with
  | nil => rfl
  | cons r0 rest ih =>
    have h0 : resourceP e p r0 = p := by
      unfold resourceP
      cases hb : e r0 with
      | none => rfl
      | some body =>
        exact foldP_fix r0 (itemsOf body) p
          (fun i hi n s hf => h r0 (by simp) body hb i hi n s hf)
    show allP e (resourceP e p r0) rest = p
    rw [h0]
    exact ih (fun r hr body hb i hi n s hf => h r (by simp [hr]) body hb i hi n s hf)

/-- Re-merging the same scripted custom-field definitions into the
mapping they produced leaves the mapping unchanged. -/
theorem allP_idem (e : String → Option Json) (order : List String)
    (p : List (Json × Json)) :
    allP e (allP e p order) order = allP e p order :=
  allP_fix e order (allP e p order)
    (fun r hr body hb i hi n s hf => allP_present e order p r body i n s hr hb hi hf)

theorem processItem_fst (r : String) (acc : List (Json × Json) × List LogEvent)
    (i : Json) : (processItem r acc i).1 = stepP r acc.1 i := by
  unfold processItem stepP
  rcases h : processItemCore r acc.1 i with ⟨props, w⟩
  cases w <;> simp [h]

theorem foldl_processItem_fst (r : String) (items : List Json)
    (acc : List (Json × Json) × List LogEvent) :
    (items.foldl (processItem r) acc).1 = foldP r acc.1 items := by
  induction items generalizing acc with
  | nil => rfl
  | cons i rest ih =>
    show (rest.foldl (processItem r) (processItem r acc i)).1 =
      foldP r (stepP r acc.1 i) rest
    rw [ih (processItem r acc i), processItem_fst]

theorem processResource_fst (e : String → Option Json)
    (acc : List (Json × Json) × List LogEvent) (r : String) :
    (processResource e acc r).1 = resourceP e acc.1 r := by
  unfold processResource resourceP
  cases e r with
  | none => rfl
  | some body => exact foldl_processItem_fst r (itemsOf body) acc

theorem foldl_processResource_fst (e : String → Option Json)
    (order : List String) (acc : List (Json × Json) × List LogEvent) :
    (order.foldl (processResource e) acc).1 = allP e acc.1 order := by
  induction order generalizing acc with
  | nil => rfl
  | cons r rest ih =>
    show (rest.foldl (processResource e) (processResource e acc r)).1 =
      allP e (resourceP e acc.1 r) rest
    rw [ih (processResource e acc r), processResource_fst]

/-- C3: when two resource types' definition endpoints both return a
field named `X` whose declared types resolve to different schema
shapes, the merge does not raise, binds `X` to the first-seen shape,
and produces exactly one conflict warning. -/
theorem conflict_keeps_first_shape_and_warns
    (r1 r2 X t1 t2 : String) (s1 s2 b1 b2 i1 i2 fd1 fd2 : Json)
    (tok : Option String) (e : String → Option Json)
    (hr1 : r1 ∈ resource_types) (hr2 : r2 ∈ resource_types)
    (hX : X ≠ "")
    (ht1 : lookupStr t1 custom_field_type = some s1)
    (ht2 : lookupStr t2 custom_field_type = some s2)
    (hne : Json.beq s1 s2 = false)
    (htok : struthy tok = true)
    (he1 : e r1 = some b1) (hb1 : itemsOf b1 = [i1])
    (hd1 : i1.get "data" = some fd1)
    (hn1 : fd1.get "name" = some (.str X))
    (hty1 : fd1.get "type" = some (.str t1))
    (he2 : e r2 = some b2) (hb2 : itemsOf b2 = [i2])
    (hd2 : i2.get "data" = some fd2)
    (hn2 : fd2.get "name" = some (.str X))
    (hty2 : fd2.get "type" = some (.str t2)) :
    update_schema [r1, r2] tok e =
      .ok ([(.str X, s1)],
           [.conflict (.str X) t2 r2 (conflictDesc s1)]) := by
  have ht1ne : t1 ≠ "" := by
    intro hcontra
    rw [hcontra] at ht1
    simp [lookupStr, custom_field_type] at ht1
  have ht2ne : t2 ≠ "" := by
    intro hcontra
    rw [hcontra] at ht2
    simp [lookupStr, custom_field_type] at ht2
  have hX1 : (Json.str X).truthy = true := by simp [Json.truthy, hX]
  have hT1 : (Json.str t1).truthy = true := by simp [Json.truthy, ht1ne]
  have hT2 : (Json.str t2).truthy = true := by simp [Json.truthy, ht2ne]
  have hall : List.all [r1, r2] (fun r => resource_types.contains r) = true := by
    simp [hr1, hr2]
  unfold update_schema
  rw [hall, htok]
  simp [processResource, processItem, processItemCore, he1, he2, hb1, hb2,
    hd1, hd2, hn1, hn2, hty1, hty2, hX1, hT1, hT2, ht1, ht2, hne,
    lookupKey, Json.beq]

/-- Witness for C3: `address` versus `string` declarations of the same
field name over the deal and contact resource types. -/
theorem conflict_keeps_first_shape_and_warns_witness :
    update_schema ["deal", "contact"] (some "token")
      (fun r =>
        if r = "deal" then some (.obj [("items", .arr
          [.obj [("data", .obj [("name", .str "X"), ("type", .str "address")])]])])
        else if r = "contact" then some (.obj [("items", .arr
          [.obj [("data", .obj [("name", .str "X"), ("type", .str "string")])]])])
        else none) =
      .ok ([(.str "X", .obj [("type", .arr [.str "object", .str "null"]),
                             ("properties", address_properties)])],
           [.conflict (.str "X") "string" "contact"
              (conflictDesc (.obj [("type", .arr [.str "object", .str "null"]),
                                   ("properties", address_properties)]))]) :=
  conflict_keeps_first_shape_and_warns "deal" "contact" "X" "address" "string"
    (.obj [("type", .arr [.str "object", .str "null"]),
           ("properties", address_properties)])
    strNullShape
    (.obj [("items", .arr
      [.obj [("data", .obj [("name", .str "X"), ("type", .str "address")])]])])
    (.obj [("items", .arr
      [.obj [("data", .obj [("name", .str "X"), ("type", .str "string")])]])])
    (.obj [("data", .obj [("name", .str "X"), ("type", .str "address")])])
    (.obj [("data", .obj [("name", .str "X"), ("type", .str "string")])])
    (.obj [("name", .str "X"), ("type", .str "address")])
    (.obj [("name", .str "X"), ("type", .str "string")])
    (some "token")
    (fun r =>
      if r = "deal" then some (.obj [("items", .arr
        [.obj [("data", .obj [("name", .str "X"), ("type", .str "address")])]])])
      else if r = "contact" then some (.obj [("items", .arr
        [.obj [("data", .obj [("name", .str "X"), ("type", .str "string")])]])])
      else none)
    (by decide) (by decide) (by decide) rfl rfl (by decide) rfl
    rfl rfl rfl rfl rfl rfl rfl rfl rfl rfl

/-- C7: the custom field merge is idempotent: over one fixed scripted
set of definitions, merging the definitions twice produces the same
resolved name-to-shape mapping as merging them once. -/
theorem update_schema_idempotent (order : List String) (tok : Option String)
    (e : String → Option Json)
    (hv : order.all (fun r => resource_types.contains r) = true)
    (ht : struthy tok = true) :
    ∃ props logs1 logs2,
      update_schema order tok e = .ok (props, logs1) ∧
      update_schema (order ++ order) tok e = .ok (props, logs2) := by
  have hv2 : (order ++ order).all (fun r => resource_types.contains r) = true := by
    simp only [List.all_append, hv, Bool.and_self]
  have hfst : ((order ++ order).foldl (processResource e) ([], [])).1 =
      (order.foldl (processResource e) ([], [])).1 := by
    rw [foldl_processResource_fst, foldl_processResource_fst]
    show allP e [] (order ++ order) = allP e [] order
    unfold allP
    rw [List.foldl_append]
    exact allP_idem e order []
  have key : (order ++ order).foldl (processResource e) ([], []) =
      ((order.foldl (processResource e) ([], [])).1,
       ((order ++ order).foldl (processResource e) ([], [])).2) :=
    Prod.ext hfst rfl
  refine ⟨(order.foldl (processResource e) ([], [])).1,
    (order.foldl (processResource e) ([], [])).2,
    ((order ++ order).foldl (processResource e) ([], [])).2, ?_, ?_⟩
  · unfold update_schema
    rw [hv, ht]
    rfl
  · unfold update_schema
    rw [hv2, ht]
    simp only [Bool.not_true, Bool.false_eq_true, if_false]
    rw [key]

/-- Witness for C7 over a concrete scripted endpoint serving two deal
fields. -/
theorem update_schema_idempotent_witness :
    ∃ props logs1 logs2,
      update_schema ["deal"] (some "token")
        (fun _ => some (.obj [("items", .arr
          [.obj [("data", .obj [("name", .str "A"), ("type", .str "number")])],
           .obj [("data", .obj [("name", .str "A"), ("type", .str "address")])]])]))
        = .ok (props, logs1) ∧
      update_schema (["deal"] ++ ["deal"]) (some "token")
        (fun _ => some (.obj [("items", .arr
          [.obj [("data", .obj [("name", .str "A"), ("type", .str "number")])],
           .obj [("data", .obj [("name", .str "A"), ("type", .str "address")])]])]))
        = .ok (props, logs2) :=
  update_schema_idempotent ["deal"] (some "token") _ (by decide) (by decide)

/-- C9: `_update_schema`'s precondition checks precede all network
activity: an invalid resource-type set, or a missing access token,
raises `ValueError` with no dependence on the custom-fields endpoint
(the scripted endpoint is universally quantified, so no fetch is
performed). -/
theorem update_schema_precondition_checks
    (order : List String) (tok : Option String) (e : String → Option Json) :
    (order.all (fun r => resource_types.contains r) = false →
      update_schema order tok e = .error "Invalid resource type(s) provided.") ∧
    (order.all (fun r => resource_types.contains r) = true →
      struthy tok = false →
      update_schema order tok e =
        .error "Access token is required but not found in config.") := by
  constructor
  · intro h
    unfold update_schema
    rw [h]
    rfl
  · intro hv htok
    unfold update_schema
    rw [hv, htok]
    rfl

/-- Witness for C9: an invalid resource type, and a valid set with a
missing token. -/
theorem update_schema_precondition_checks_witness :
    (update_schema ["bogus"] (some "token") (fun _ => none) =
      .error "Invalid resource type(s) provided.") ∧
    (update_schema ["deal"] none (fun _ => none) =
      .error "Access token is required but not found in config.") :=
  ⟨(update_schema_precondition_checks ["bogus"] (some "token") (fun _ => none)).1
      (by decide),
   (update_schema_precondition_checks ["deal"] none (fun _ => none)).2
      (by decide) (by decide)⟩

/-! ## Theorems: child streams and record parsing -/

/-- C5: a child stream invoked with a context lacking its parent id key
(or a `None` context, or a JSON-null parent id) yields zero records,
raises nothing, and logs one skip warning — for every scripted server
behaviour. -/
theorem child_stream_missing_parent
    (ctx : Option Json) (pages pages' : List (List Json)) (script : List Resp)
    (h1 : pyIsNone (parentId ctx "order_id") = true)
    (h2 : pyIsNone (parentId ctx "deal_id") = true) :
    line_items_get_records ctx pages = .ok ([], [.missingParent "line_items"]) ∧
    associated_contacts_get_records ctx pages' =
      .ok ([], [.missingParent "associated_contacts"]) ∧
    assoc_request_get_records ctx script =
      .ok ([], [.missingParent "associated_contacts"]) := by
  refine ⟨?_, ?_, ?_⟩
  · simp [line_items_get_records, h1]
  · simp [associated_contacts_get_records, h2]
  · simp [assoc_request_get_records, h2]

/-- Witness for C5 with a `None` context. -/
theorem child_stream_missing_parent_witness :
    line_items_get_records none [[.obj [("id", .num 1)]]] =
      .ok ([], [.missingParent "line_items"]) ∧
    associated_contacts_get_records none [] =
      .ok ([], [.missingParent "associated_contacts"]) ∧
    assoc_request_get_records none [] =
      .ok ([], [.missingParent "associated_contacts"]) :=
  child_stream_missing_parent none [[.obj [("id", .num 1)]]] [] []
    (by decide) (by decide)

theorem lookupStr_setKey (k : String) (v : Json) (kvs : List (String × Json)) :
    lookupStr k (setKey k v kvs) = some v := by
  induction kvs with
  | nil => simp [setKey, lookupStr]
  | cons kv rest ih =>
    obtain ⟨k', v'⟩ := kv
    by_cases h : k' = k
    · simp [setKey, lookupStr, h]
    · simp [setKey, lookupStr, h, ih]

theorem mapExcept_mem (f : Json → Except String Json) (xs ys : List Json)
    (h : mapExcept f xs = .ok ys) (y : Json) (hy : y ∈ ys) :
    ∃ x ∈ xs, f x = .ok y := by
  induction xs generalizing ys with
  | nil =>
    unfold mapExcept at h
    injection h with h'
    subst h'
    cases hy
  | cons x rest ih =>
    unfold mapExcept at h
    rcases hf : f x with e | y0 <;> rw [hf] at h
    · cases h
    · rcases hr : mapExcept f rest with e | ys0 <;> rw [hr] at h
      · cases h
      · injection h with h'
        subst h'
        rcases List.mem_cons.mp hy with rfl | hy'
        · exact ⟨x, by simp, hf⟩
        · obtain ⟨x', hx'm, hx'⟩ := ih ys0 hr hy'
          exact ⟨x', by simp [hx'm], hx'⟩

theorem lineItemsLoop_mem (orderId : Json) (pages : List (List Json))
    (recs : List Json) (h : lineItemsLoop orderId pages = .ok recs)
    (r : Json) (hr : r ∈ recs) :
    ∃ row, lineItemRow orderId row = .ok r := by
  induction pages generalizing recs with
  | nil =>
    unfold lineItemsLoop at h
    injection h with h'
    subst h'
    cases hr
  | cons pg rest ih =>
    unfold lineItemsLoop at h
    by_cases hpg : pg.isEmpty
    · rw [if_pos hpg] at h
      injection h with h'
      subst h'
      cases hr
    · rw [if_neg hpg] at h
      rcases hm : mapExcept (lineItemRow orderId) pg with e | rows <;> rw [hm] at h
      · cases h
      · rcases hl : lineItemsLoop orderId rest with e | more <;> rw [hl] at h
        · cases h
        · injection h with h'
          subst h'
          rcases List.mem_append.mp hr with h1 | h2
          · obtain ⟨x, _, hx⟩ := mapExcept_mem _ pg rows hm r h1
            exact ⟨x, hx⟩
          · exact ih more hl h2

theorem assocLoop_mem (dealId : Json) (pages : List (List Json))
    (recs : List Json) (h : assocLoop dealId pages = .ok recs)
    (r : Json) (hr : r ∈ recs) :
    ∃ row, assocRow dealId row = .ok r := by
  induction pages generalizing recs with
  | nil =>
    unfold assocLoop at h
    injection h with h'
    subst h'
    cases hr
  | cons pg rest ih =>
    unfold assocLoop at h
    by_cases hpg : pg.isEmpty
    · rw [if_pos hpg] at h
      injection h with h'
      subst h'
      cases hr
    · rw [if_neg hpg] at h
      rcases hm : mapExcept (assocRow dealId) pg with e | rows <;> rw [hm] at h
      · cases h
      · rcases hl : assocLoop dealId rest with e | more <;> rw [hl] at h
        · cases h
        · injection h with h'
          subst h'
          rcases List.mem_append.mp hr with h1 | h2
          · obtain ⟨x, _, hx⟩ := mapExcept_mem _ pg rows hm r h1
            exact ⟨x, hx⟩
          · exact ih more hl h2

theorem lineItemRow_order_id (orderId row r : Json)
    (h : lineItemRow orderId row = .ok r) :
    r.get "order_id" = some orderId := by
  unfold lineItemRow at h
  split at h
  · split at h
    · cases h
    · injection h with h'
      subst h'
      exact lookupStr_setKey "order_id" orderId _
  · cases h

theorem assocRow_deal_id (dealId row r : Json)
    (h : assocRow dealId row = .ok r) :
    r.get "deal_id" = some dealId := by
  unfold assocRow at h
  split at h
  · injection h with h'
    subst h'
    exact lookupStr_setKey "deal_id" dealId _
  · cases h

/-- C6: for a parent record with id 42, the child context carries the
foreign key, and every record yielded by a child stream under that
context carries the parent's foreign key 42 (`order_id` for line items,
`deal_id` for associated contacts — in both implementations). -/
theorem child_fk_injection (parent : Json)
    (hid : parent.get "id" = some (.num 42)) :
    order_child_context parent = .ok (.obj [("order_id", .num 42)]) ∧
    deal_child_context parent = .ok (.obj [("deal_id", .num 42)]) ∧
    (∀ pages recs logs,
      line_items_get_records (some (.obj [("order_id", .num 42)])) pages =
        .ok (recs, logs) → ∀ r ∈ recs, r.get "order_id" = some (.num 42)) ∧
    (∀ pages recs logs,
      associated_contacts_get_records (some (.obj [("deal_id", .num 42)])) pages =
        .ok (recs, logs) → ∀ r ∈ recs, r.get "deal_id" = some (.num 42)) ∧
    (∀ script recs logs,
      assoc_request_get_records (some (.obj [("deal_id", .num 42)])) script =
        .ok (recs, logs) → ∀ r ∈ recs, r.get "deal_id" = some (.num 42)) := by
  refine ⟨by simp [order_child_context, hid], by simp [deal_child_context, hid],
    ?_, ?_, ?_⟩
  · intro pages recs logs h r hr
    unfold line_items_get_records at h
    simp only [parentId, Json.get, lookupStr, pyIsNone] at h
    norm_num at h
    rcases hl : lineItemsLoop (.num 42) pages with e | recs0 <;> rw [hl] at h
    · cases h
    · injection h with h'
      obtain ⟨rfl, rfl⟩ : recs0 = recs ∧ ([] : List LogEvent) = logs := by
        exact ⟨congrArg Prod.fst h', congrArg Prod.snd h'⟩
      obtain ⟨row, hrow⟩ := lineItemsLoop_mem (.num 42) pages recs0 hl r hr
      exact lineItemRow_order_id (.num 42) row r hrow
  · intro pages recs logs h r hr
    unfold associated_contacts_get_records at h
    simp only [parentId, Json.get, lookupStr, pyIsNone] at h
    norm_num at h
    rcases hl : assocLoop (.num 42) pages with e | recs0 <;> rw [hl] at h
    · cases h
    · injection h with h'
      obtain ⟨rfl, rfl⟩ : recs0 = recs ∧ ([] : List LogEvent) = logs := by
        exact ⟨congrArg Prod.fst h', congrArg Prod.snd h'⟩
      obtain ⟨row, hrow⟩ := assocLoop_mem (.num 42) pages recs0 hl r hr
      exact assocRow_deal_id (.num 42) row r hrow
  · intro script recs logs h r hr
    unfold assoc_request_get_records at h
    simp only [parentId, Json.get, lookupStr, pyIsNone] at h
    norm_num at h
    rcases hm : mapExcept (assocRow (.num 42)) (request_records script).1
        with e | recs0 <;> rw [hm] at h
    · cases h
    · injection h with h'
      obtain ⟨rfl, rfl⟩ : recs0 = recs ∧ ([] : List LogEvent) = logs := by
        exact ⟨congrArg Prod.fst h', congrArg Prod.snd h'⟩
      obtain ⟨row, _, hrow⟩ := mapExcept_mem _ _ recs0 hm r hr
      exact assocRow_deal_id (.num 42) row r hrow

/-- Witness for C6 at concrete parent and child rows. -/
theorem child_fk_injection_witness :
    order_child_context (.obj [("id", .num 42)]) =
      .ok (.obj [("order_id", .num 42)]) ∧
    (Json.obj [("line_item_id", .num 7), ("order_id", .num 42)]).get "order_id" =
      some (.num 42) ∧
    (Json.obj [("name", .str "c"), ("deal_id", .num 42)]).get "deal_id" =
      some (.num 42) :=
  ⟨(child_fk_injection (.obj [("id", .num 42)]) rfl).1,
   (child_fk_injection (.obj [("id", .num 42)]) rfl).2.2.1
     [[.obj [("id", .num 7)]]]
     [.obj [("line_item_id", .num 7), ("order_id", .num 42)]] [] rfl
     (.obj [("line_item_id", .num 7), ("order_id", .num 42)]) (by simp),
   (child_fk_injection (.obj [("id", .num 42)]) rfl).2.2.2.1
     [[.obj [("name", .str "c")]]]
     [.obj [("name", .str "c"), ("deal_id", .num 42)]] [] rfl
     (.obj [("name", .str "c"), ("deal_id", .num 42)]) (by simp)⟩

/-- C8 counterexample: a record whose numeric-looking fields arrive as
strings is yielded by `parse_response` with those fields still strings:
no coercion to a numeric type, and no nulling, occurs. -/
theorem numeric_strings_not_coerced :
    parse_response ⟨200, .obj [("items", .arr
      [.obj [("data", .obj [("value", .str "12.5"), ("quantity", .str "3")])]])]⟩ =
      [.obj [("value", .str "12.5"), ("quantity", .str "3")]] ∧
    (Json.obj [("value", .str "12.5"), ("quantity", .str "3")]).get "value" =
      some (.str "12.5") ∧
    (∀ q : Int, Json.str "12.5" ≠ .num q) ∧ Json.str "12.5" ≠ .null :=
  ⟨rfl, rfl, fun _ h => Json.noConfusion h, fun h => Json.noConfusion h⟩

/-- C8 amended: `parse_response` performs no type coercion at all: every
yielded record is verbatim the `data` value of some response item; and
the schema tables themselves keep `number` custom fields as nullable
strings. -/
theorem parse_response_yields_raw_records (r : Resp) (rec : Json)
    (h : rec ∈ parse_response r) :
    (∃ item ∈ itemsOf r.body, item.get "data" = some rec) ∧
    lookupStr "number" custom_field_type = some strNullShape := by
  refine ⟨?_, rfl⟩
  unfold parse_response at h
  exact List.mem_filterMap.mp h

/-- Witness for C8's amended statement. -/
theorem parse_response_yields_raw_records_witness :
    (∃ item ∈ itemsOf (Json.obj [("items", .arr
        [.obj [("data", .obj [("value", .str "12.5")])]])]),
      item.get "data" = some (.obj [("value", .str "12.5")])) ∧
    lookupStr "number" custom_field_type = some strNullShape :=
  parse_response_yields_raw_records
    ⟨200, .obj [("items", .arr [.obj [("data", .obj [("value", .str "12.5")])]])]⟩
    (.obj [("value", .str "12.5")])
    (List.mem_singleton.mpr rfl)

end TapZendeskSell
